import Mathlib

/-
  Shallow embedding of the geoid-tool repository (fklosowski/geoid-tool).

  Format A = src/byn_format.py      (class BYN)
  Format B = src/ggf_format.py      (class GGF)
  Format D = src/gsf_format.py      (class GSF)
  Format E = src/javad_bin_format.py (class BinaryGeoid)

  Machine doubles are embedded as exact rationals; Python lists as Lean
  lists; a Python exception (IndexError, EOFError, struct.error) is the
  value none of an Option result.
-/

namespace GeoidTool

/-! ## Format A: byn_format.py (class BYN) -/

/-- The state a BYN object holds after load_byn: boundary, spacing, derived
row/column counts and the de-scaled value buffer. -/
structure BYNState where
  boundary_south : ℚ
  boundary_north : ℚ
  boundary_west : ℚ
  boundary_east : ℚ
  spacing_ns : ℚ
  spacing_ew : ℚ
  columns : ℕ
  rows : ℕ
  geoid_values : List ℚ

/-- Python sequence indexing on a list: a non-negative index reads directly,
a negative index wraps from the end, anything else raises IndexError (none). -/
def pyGet (xs : List ℚ) (i : ℤ) : Option ℚ :=
  if 0 ≤ i then xs.get? i.toNat
  else if 0 ≤ (xs.length : ℤ) + i then xs.get? ((xs.length : ℤ) + i).toNat
  else none

/-- BYN.__extract_value (byn_format.py lines 106-118): the guard uses strict
comparisons cell_x > columns and cell_y > rows exactly as in the source, the
Y axis is flipped, and the buffer access has Python indexing semantics. -/
def extract_value (g : BYNState) (cell_x cell_y : ℤ) : Option ℚ :=
  if cell_x < 0 ∨ cell_x > (g.columns : ℤ) ∨ cell_y < 0 ∨ cell_y > (g.rows : ℤ) then
    some 0
  else
    let cy := (g.rows : ℤ) - cell_y - 1
    let offset := cy * (g.columns : ℤ) + cell_x
    pyGet g.geoid_values offset

/-- BYN.__multiply (byn_format.py lines 124-142): textbook triple-loop matrix
product on nested lists; raises (none) when len(left[0]) differs from
len(right).  Out-of-range inner accesses (only possible for ragged inputs this
program never builds) read 0. -/
def multiply (left right : List (List ℚ)) : Option (List (List ℚ)) :=
  if (left.headD []).length ≠ right.length then none
  else some (left.map fun row =>
    (List.range (right.headD []).length).map fun col =>
      (List.range (left.headD []).length).foldl
        (fun acc s => acc + row.getD s 0 * ((right.getD s []).getD col 0)) 0)

/-- The fixed 9 by 9 quadratic-surface coefficient matrix Ai
(byn_format.py lines 204-214), verbatim. -/
def Ai : List (List ℚ) :=
  [ [ 0.25, -0.5, 0.25, -0.5,  1.0, -0.5,  0.25, -0.5,  0.25],
    [ 0.25, -0.5, 0.25, -0.0,  0.0, -0.0, -0.25,  0.5, -0.25],
    [-0.25,  0.0, 0.25,  0.5,  0.0, -0.5, -0.25,  0.0,  0.25],
    [ 0.0,  -0.0, 0.0,   0.5, -1.0,  0.5,  0.0,   0.0,  0.0 ],
    [ 0.0,   0.5, 0.0,   0.0, -1.0,  0.0,  0.0,   0.5,  0.0 ],
    [-0.25, -0.0, 0.25,  0.0,  0.0,  0.0,  0.25,  0.0, -0.25],
    [ 0.0,   0.0, 0.0,  -0.5,  0.0,  0.5,  0.0,   0.0,  0.0 ],
    [ 0.0,   0.5, 0.0,   0.0,  0.0,  0.0,  0.0,  -0.5,  0.0 ],
    [ 0.0,   0.0, 0.0,   0.0,  1.0,  0.0,  0.0,   0.0,  0.0 ] ]

/-- BYN.compute_separation (byn_format.py lines 168-230): multiply the query
by 3600 (degrees to arcseconds), shift by the west/south boundary, locate the
base cell with floor, extract the 3 by 3 neighbourhood, apply Ai, and evaluate
the quadratic basis at the fractional cell position. -/
def compute_separation (g : BYNState) (longitude latitude : ℚ) : Option ℚ :=
  let point_x := longitude * 3600
  let point_y := latitude * 3600
  let point_x := point_x - g.boundary_west
  let point_y := point_y - g.boundary_south
  let grid_x5 : ℤ := ⌊point_x / g.spacing_ew⌋
  let grid_y5 : ℤ := ⌊point_y / g.spacing_ns⌋
  do
    let l1 ← extract_value g (grid_x5 - 1) (grid_y5 + 1)
    let l2 ← extract_value g grid_x5 (grid_y5 + 1)
    let l3 ← extract_value g (grid_x5 + 1) (grid_y5 + 1)
    let l4 ← extract_value g (grid_x5 - 1) grid_y5
    let l5 ← extract_value g grid_x5 grid_y5
    let l6 ← extract_value g (grid_x5 + 1) grid_y5
    let l7 ← extract_value g (grid_x5 - 1) (grid_y5 - 1)
    let l8 ← extract_value g grid_x5 (grid_y5 - 1)
    let l9 ← extract_value g (grid_x5 + 1) (grid_y5 - 1)
    let L := [[l1], [l2], [l3], [l4], [l5], [l6], [l7], [l8], [l9]]
    let X ← multiply Ai L
    let x1 := point_x / g.spacing_ew - grid_x5
    let y1 := point_y / g.spacing_ns - grid_y5
    let A := [[x1 ^ 2 * y1 ^ 2, x1 ^ 2 * y1, x1 * y1 ^ 2, x1 ^ 2, y1 ^ 2,
               x1 * y1, x1, y1, 1]]
    let R ← multiply A X
    pure ((R.headD []).headD 0)

/-- Defined from the words of the spec (section 4.5 step 1) for comparison with
compute_separation: the grid-local offset is px = coord_x - boundary_west,
py = coord_y - boundary_south, directly from the coordinates as given with no
unit conversion; every later step is identical to compute_separation. -/
def interpolate_spec (g : BYNState) (coord_x coord_y : ℚ) : Option ℚ :=
  let point_x := coord_x - g.boundary_west
  let point_y := coord_y - g.boundary_south
  let grid_x5 : ℤ := ⌊point_x / g.spacing_ew⌋
  let grid_y5 : ℤ := ⌊point_y / g.spacing_ns⌋
  do
    let l1 ← extract_value g (grid_x5 - 1) (grid_y5 + 1)
    let l2 ← extract_value g grid_x5 (grid_y5 + 1)
    let l3 ← extract_value g (grid_x5 + 1) (grid_y5 + 1)
    let l4 ← extract_value g (grid_x5 - 1) grid_y5
    let l5 ← extract_value g grid_x5 grid_y5
    let l6 ← extract_value g (grid_x5 + 1) grid_y5
    let l7 ← extract_value g (grid_x5 - 1) (grid_y5 - 1)
    let l8 ← extract_value g grid_x5 (grid_y5 - 1)
    let l9 ← extract_value g (grid_x5 + 1) (grid_y5 - 1)
    let L := [[l1], [l2], [l3], [l4], [l5], [l6], [l7], [l8], [l9]]
    let X ← multiply Ai L
    let x1 := point_x / g.spacing_ew - grid_x5
    let y1 := point_y / g.spacing_ns - grid_y5
    let A := [[x1 ^ 2 * y1 ^ 2, x1 ^ 2 * y1, x1 * y1 ^ 2, x1 ^ 2, y1 ^ 2,
               x1 * y1, x1, y1, 1]]
    let R ← multiply A X
    pure ((R.headD []).headD 0)

/-- The header fields of a BYN file in the order load_byn unpacks them
(byn_format.py lines 33-74), plus the 32-bit integer grid block that follows.
Boundary and spacing fields are signed integers in the file. -/
structure BYNHeader where
  boundary_south : ℤ
  boundary_north : ℤ
  boundary_west : ℤ
  boundary_east : ℤ
  spacing_ns : ℤ
  spacing_ew : ℤ
  model_type : ℤ
  data_type : ℤ
  factor : ℚ
  data_size : ℤ
  std_avail : ℤ
  raw_values : List ℤ

/-- BYN.load_byn (byn_format.py lines 33-100): rows and columns are derived
from the boundary and spacing fields with Python-2 integer floor division,
then columns*rows integers are read (an exhausted stream raises, none) and
each is divided by the header scale factor. -/
def load_byn (h : BYNHeader) : Option BYNState :=
  let columns : ℤ := (h.boundary_east - h.boundary_west).fdiv h.spacing_ew + 1
  let rows : ℤ := (h.boundary_north - h.boundary_south).fdiv h.spacing_ns + 1
  if h.raw_values.length < (columns * rows).toNat then none
  else some
    { boundary_south := h.boundary_south
      boundary_north := h.boundary_north
      boundary_west := h.boundary_west
      boundary_east := h.boundary_east
      spacing_ns := h.spacing_ns
      spacing_ew := h.spacing_ew
      columns := columns.toNat
      rows := rows.toNat
      geoid_values := (h.raw_values.take ((columns * rows).toNat)).map
        (fun v => (v : ℚ) / h.factor) }

/-! ## Format D: gsf_format.py (class GSF) -/

/-- One body line of a GSF text file: either a line starting with the marker
character N (no data) or a numeric undulation line. -/
inductive GSFLine where
  | nodata : GSFLine
  | value : ℚ → GSFLine

/-- The decoded content of a GSF text file: the six header lines in order
(min latitude, min longitude, max latitude, max longitude, column count,
row count) followed by the remaining body lines. -/
structure GSFInput where
  min_lat : ℚ
  min_lon : ℚ
  max_lat : ℚ
  max_lon : ℚ
  cols_header : ℤ
  rows_header : ℤ
  body : List GSFLine

/-- The state a GSF object holds after load_gsf. -/
structure GSFState where
  min_lat : ℚ
  min_lon : ℚ
  max_lat : ℚ
  max_lon : ℚ
  columns : ℤ
  rows : ℤ
  boundary_south : ℚ
  boundary_north : ℚ
  boundary_west : ℚ
  boundary_east : ℚ
  spacing_ns : ℚ
  spacing_ew : ℚ
  undulations : List ℚ

/-- GSF.load_gsf (gsf_format.py lines 22-44): header integers N become N+1
rows/columns, a negative longitude is reflected through 360 degrees, spacing
is span divided by the (already incremented) count, and every remaining line
becomes one undulation (marker lines become 9999.0).  No size check of any
kind is performed. -/
def load_gsf (inp : GSFInput) : GSFState :=
  let columns := inp.cols_header + 1
  let rows := inp.rows_header + 1
  { min_lat := inp.min_lat
    min_lon := inp.min_lon
    max_lat := inp.max_lat
    max_lon := inp.max_lon
    columns := columns
    rows := rows
    boundary_south := inp.min_lat
    boundary_north := inp.max_lat
    boundary_west := if inp.min_lon < 0 then 360 - |inp.min_lon| else inp.min_lon
    boundary_east := if inp.max_lon < 0 then 360 - |inp.max_lon| else inp.max_lon
    spacing_ns := (inp.max_lat - inp.min_lat) / (rows : ℚ)
    spacing_ew := (inp.max_lon - inp.min_lon) / (columns : ℚ)
    undulations := inp.body.map (fun line =>
      match line with
      | GSFLine.nodata => 9999
      | GSFLine.value v => v) }

/-! ## Format B: ggf_format.py (class GGF) -/

/-- The decoded fields of a GGF buffer at the byte offsets validateAndParse
unpacks them (ggf_format.py lines 406-459): total byte length, whether bytes
2..16 equal the Trimble signature, the version short at offset 0, the header
doubles, the two grid-size unsigned ints, and the first six flag bytes. -/
structure GGFFile where
  totalLen : ℕ
  sigOk : Bool
  version : ℕ
  latMin : ℚ
  latMax : ℚ
  longMin : ℚ
  longMax : ℚ
  latInterval : ℚ
  longInterval : ℚ
  latGridSize : ℕ
  longGridSize : ℕ
  gridNPole : ℚ
  gridSPole : ℚ
  gridMissing : ℚ
  gridScalar : ℚ
  gridWindow : ℕ
  flags0 : ℕ
  flags1 : ℕ
  flags2 : ℕ
  flags3 : ℕ
  flags4 : ℕ
  flags5 : ℕ

/-- GGF.bitSet (ggf_format.py lines 230-243). -/
def bitSet (b : ℕ) (bit : ℕ) : Bool := (b &&& (1 <<< bit)) != 0

/-- GGF.parseFlags (ggf_format.py lines 245-339), reduced to its control flow:
the returned validity flag and error number, with the checks in source order
(units byte, interpolation byte, data-format byte, supported data format,
latitude direction byte, longitude direction byte). -/
def parseFlags (b1 b2 b3 b4 b5 : ℕ) (strict : Bool) : Bool × ℕ :=
  if b1 = 0 ∧ strict then (false, 101)
  else if b2 = 0 then (false, 102)
  else if b3 = 0 then (false, 103)
  else if ¬(bitSet b3 3 = true ∨ bitSet b3 2 = true) then (false, 202)
  else if b4 = 0 ∧ strict then (false, 104)
  else if b5 = 0 ∧ strict then (false, 105)
  else (true, 0)

/-- GGF.validateAndParse (ggf_format.py lines 394-494), reduced to the
validity flag and error number it returns: header-length check (error 1),
signature check (error 2), version check (error 3), the two geometry
consistency checks with tolerance 0.0001 (errors 4, 5), the flag checks, and
the total-size cross-check against header + grid (+ 16-byte footer for
version 1) (error 6); success is (true, 0). -/
def validateAndParse (f : GGFFile) (strict : Bool) : Bool × ℕ :=
  if f.totalLen < 146 then (false, 1)
  else if f.sigOk = false then (false, 2)
  else if f.version > 1 then (false, 3)
  else if |f.latMin + ((f.latGridSize : ℚ) - 1) * f.latInterval - f.latMax| > 0.0001 then
    (false, 4)
  else if |f.longMin + ((f.longGridSize : ℚ) - 1) * f.longInterval - f.longMax| > 0.0001 then
    (false, 5)
  else
    match parseFlags f.flags1 f.flags2 f.flags3 f.flags4 f.flags5 strict with
    | (false, e) => (false, e)
    | (true, _) =>
      let gridSize := f.latGridSize * f.longGridSize * 4
      if f.version = 0 then
        if f.totalLen ≠ gridSize + 146 then (false, 6) else (true, 0)
      else if f.version = 1 then
        if f.totalLen ≠ gridSize + 146 + 16 then (false, 6) else (true, 0)
      else (true, 0)

/-- The per-sample semantics of GGF.parseGrid (ggf_format.py lines 373-389):
an unpacked raw value is first divided by the scalar when the scaled flag is
set, and the result is then compared with the header missing-value double;
an exact match becomes the missing marker None. -/
def decodeGGFValue (isScaled : Bool) (scalar missing raw : ℚ) : Option ℚ :=
  let v := if isScaled then raw / scalar else raw
  if v = missing then none else some v

/-! ## Format E: javad_bin_format.py (class BinaryGeoid) -/

/-- The header fields of a Javad binary geoid file in the order load_geoid
unpacks them (javad_bin_format.py lines 35-63), plus the raw data samples
that follow (unsigned shorts, unsigned ints or floats, depending on the
type discriminant). -/
structure JavadFile where
  minx : ℚ
  maxy : ℚ
  maxx : ℚ
  miny : ℚ
  dx : ℚ
  dy : ℚ
  ncol : ℕ
  nrow : ℕ
  ncol2 : ℕ
  nrow2 : ℕ
  type_ : ℕ
  interp : ℕ
  zscale : ℚ
  zmin : ℚ
  nvals : ℕ
  raw_samples : List ℚ

/-- The state a BinaryGeoid object holds after load_geoid. -/
structure JavadState where
  boundary_south : ℚ
  boundary_north : ℚ
  boundary_west : ℚ
  boundary_east : ℚ
  spacing_ns : ℚ
  spacing_ew : ℚ
  columns : ℕ
  rows : ℕ
  geoid_values : List ℚ

/-- The radians-to-degrees factor of javad_bin_format.py line 23, with the
literal decimal approximation of pi used by the source. -/
def R2D : ℚ := 180 / 3.14159265358979323846

/-- The per-sample decode of BinaryGeoid.load_geoid (javad_bin_format.py
lines 78-89): discriminant 3 reads an unsigned short where 0 and 1 are
placeholders for missing (9999.0) and any other value v becomes
zmin + (v - 1)/zscale; discriminant 4 reads an unsigned int v giving
zmin + v/zscale; discriminant 5 reads a float f giving zmin + f. -/
def decodeJavadSample (t : ℕ) (zmin zscale : ℚ) (val : ℚ) : ℚ :=
  if t = 3 then
    if val = 0 ∨ val = 1 then 9999 else zmin + (val - 1) / zscale
  else if t = 4 then zmin + val / zscale
  else zmin + val

/-- BinaryGeoid.load_geoid (javad_bin_format.py lines 35-89): boundary fields
are the corner radians scaled by R2D, counts come from the header ncol/nrow
fields, and the loop over nrow*ncol samples decodes per the discriminant.
For a discriminant other than 3, 4 or 5 no branch of the loop body matches:
nothing is read and nothing is appended, so the function returns normally
with an empty value list.  For a supported discriminant an exhausted sample
stream raises (none). -/
def load_geoid (f : JavadFile) : Option JavadState :=
  let n := f.nrow * f.ncol
  if f.type_ = 3 ∨ f.type_ = 4 ∨ f.type_ = 5 then
    if f.raw_samples.length < n then none
    else some
      { boundary_south := f.miny * R2D
        boundary_north := f.maxy * R2D
        boundary_west := f.minx * R2D
        boundary_east := f.maxx * R2D
        spacing_ns := f.dy
        spacing_ew := f.dx
        columns := f.ncol
        rows := f.nrow
        geoid_values := (f.raw_samples.take n).map
          (decodeJavadSample f.type_ f.zmin f.zscale) }
  else some
    { boundary_south := f.miny * R2D
      boundary_north := f.maxy * R2D
      boundary_west := f.minx * R2D
      boundary_east := f.maxx * R2D
      spacing_ns := f.dy
      spacing_ew := f.dx
      columns := f.ncol
      rows := f.nrow
      geoid_values := [] }

/-! ## Concrete fixtures used by the theorems -/

/-- A 3 by 3 grid (arc-second frame, unit spacing) whose nine values are all
the constant 5. -/
def bynConstGrid5 : BYNState :=
  { boundary_south := 0, boundary_north := 2, boundary_west := 0, boundary_east := 2,
    spacing_ns := 1, spacing_ew := 1, columns := 3, rows := 3,
    geoid_values := List.replicate 9 5 }

/-- A 3 by 3 grid (arc-second frame, unit spacing) whose nine values are all
the constant 1. -/
def bynConstGrid1 : BYNState :=
  { boundary_south := 0, boundary_north := 2, boundary_west := 0, boundary_east := 2,
    spacing_ns := 1, spacing_ew := 1, columns := 3, rows := 3,
    geoid_values := List.replicate 9 1 }

/-- A 3 by 3 grid (arc-second frame, unit spacing) whose nine values are all
the constant 7. -/
def bynConstGrid7 : BYNState :=
  { boundary_south := 0, boundary_north := 2, boundary_west := 0, boundary_east := 2,
    spacing_ns := 1, spacing_ew := 1, columns := 3, rows := 3,
    geoid_values := List.replicate 9 7 }

/-- A 2 by 2 grid (arc-second frame, unit spacing) with the four values
10, 20, 30, 40: the smallest grid on which the neighbourhood walk can step
one past the value buffer. -/
def bynSmallGrid : BYNState :=
  { boundary_south := 0, boundary_north := 1, boundary_west := 0, boundary_east := 1,
    spacing_ns := 1, spacing_ew := 1, columns := 2, rows := 2,
    geoid_values := [10, 20, 30, 40] }

/-- The minimal format-D text fixture of the spec: header lines
0.0 / 0.0 / 1.0 / 1.0 / 1 / 1 and body lines 1.0, 2.0, 3.0, 4.0. -/
def gsfFixture : GSFInput :=
  { min_lat := 0, min_lon := 0, max_lat := 1, max_lon := 1,
    cols_header := 1, rows_header := 1,
    body := [GSFLine.value 1, GSFLine.value 2, GSFLine.value 3, GSFLine.value 4] }

/-- A format-D text input whose header implies a 2 by 2 grid but whose body
holds only three value lines. -/
def gsfShortInput : GSFInput :=
  { min_lat := 0, min_lon := 0, max_lat := 1, max_lon := 1,
    cols_header := 1, rows_header := 1,
    body := [GSFLine.value 1, GSFLine.value 2, GSFLine.value 3] }

/-- A GGF buffer with a valid signature, consistent 2 by 2 geometry and
well-formed flag bytes, version 0, and the exact consistent total size
146 + 2*2*4 = 162. -/
def ggfGood : GGFFile :=
  { totalLen := 162, sigOk := true, version := 0,
    latMin := 0, latMax := 1, longMin := 0, longMax := 1,
    latInterval := 1, longInterval := 1, latGridSize := 2, longGridSize := 2,
    gridNPole := 0, gridSPole := 0, gridMissing := -777, gridScalar := 1,
    gridWindow := 0, flags0 := 0, flags1 := 4, flags2 := 1, flags3 := 8,
    flags4 := 1, flags5 := 1 }

/-- The same buffer as ggfGood except one byte longer (size 163): size
inconsistent, everything else valid. -/
def ggfBadSize : GGFFile :=
  { ggfGood with totalLen := 163 }

/-- A GGF buffer of total size 200 (inconsistent with its 2 by 2 geometry,
which requires 162 or 178 bytes) carrying the unsupported version 5. -/
def ggfBadVersion : GGFFile :=
  { ggfGood with totalLen := 200, version := 5 }

/-- A BYN header for a 3 by 3 grid with unit spacing, unit scale factor and
nine raw zeros. -/
def bynHeaderFix : BYNHeader :=
  { boundary_south := 0, boundary_north := 2, boundary_west := 0, boundary_east := 2,
    spacing_ns := 1, spacing_ew := 1, model_type := 0, data_type := 1, factor := 1,
    data_size := 4, std_avail := 0, raw_values := List.replicate 9 0 }

/-- A Javad binary file whose data-type discriminant 7 is outside the
supported set {3, 4, 5}, with a 1 by 1 grid and no samples. -/
def javadUnsupported : JavadFile :=
  { minx := 0, maxy := 1, maxx := 1, miny := 0, dx := 1, dy := 1,
    ncol := 1, nrow := 1, ncol2 := 1, nrow2 := 1, type_ := 7, interp := 0,
    zscale := 1, zmin := 0, nvals := 1, raw_samples := [] }

end GeoidTool

/-! ## Helper lemmas -/

namespace GeoidTool

set_option maxHeartbeats 1000000 in
/-- Evaluation of the fixed coefficient matrix applied to a 9-element
neighbourhood column. -/
lemma multiply_Ai_col (l1 l2 l3 l4 l5 l6 l7 l8 l9 : ℚ) :
    multiply Ai [[l1], [l2], [l3], [l4], [l5], [l6], [l7], [l8], [l9]] =
      some [[0.25*l1 - 0.5*l2 + 0.25*l3 - 0.5*l4 + l5 - 0.5*l6 + 0.25*l7 - 0.5*l8 + 0.25*l9],
            [0.25*l1 - 0.5*l2 + 0.25*l3 - 0.25*l7 + 0.5*l8 - 0.25*l9],
            [-0.25*l1 + 0.25*l3 + 0.5*l4 - 0.5*l6 - 0.25*l7 + 0.25*l9],
            [0.5*l4 - l5 + 0.5*l6],
            [0.5*l2 - l5 + 0.5*l8],
            [-0.25*l1 + 0.25*l3 + 0.25*l7 - 0.25*l9],
            [-0.5*l4 + 0.5*l6],
            [0.5*l2 - 0.5*l8],
            [l5]] := by
  simp [multiply, Ai, List.range_succ]
  norm_num
  repeat' apply And.intro
  all_goals ring

set_option maxHeartbeats 1000000 in
/-- Evaluation of the final basis-row times coefficient-column product. -/
lemma multiply_row_col (b1 b2 b3 b4 b5 b6 b7 b8 b9 c1 c2 c3 c4 c5 c6 c7 c8 c9 : ℚ) :
    multiply [[b1, b2, b3, b4, b5, b6, b7, b8, b9]]
        [[c1], [c2], [c3], [c4], [c5], [c6], [c7], [c8], [c9]] =
      some [[b1*c1 + b2*c2 + b3*c3 + b4*c4 + b5*c5 + b6*c6 + b7*c7 + b8*c8 + b9*c9]] := by
  simp [multiply, List.range_succ]

set_option maxHeartbeats 1600000 in
/-- Closed form of compute_separation once the base cell and the nine
neighbourhood extractions are known. -/
lemma compute_separation_eq (g : BYNState) (lon lat : ℚ) (gx gy : ℤ)
    (x1 y1 l1 l2 l3 l4 l5 l6 l7 l8 l9 : ℚ)
    (hgx : ⌊(lon * 3600 - g.boundary_west) / g.spacing_ew⌋ = gx)
    (hgy : ⌊(lat * 3600 - g.boundary_south) / g.spacing_ns⌋ = gy)
    (hx1 : (lon * 3600 - g.boundary_west) / g.spacing_ew - (gx : ℚ) = x1)
    (hy1 : (lat * 3600 - g.boundary_south) / g.spacing_ns - (gy : ℚ) = y1)
    (h1 : extract_value g (gx - 1) (gy + 1) = some l1)
    (h2 : extract_value g gx (gy + 1) = some l2)
    (h3 : extract_value g (gx + 1) (gy + 1) = some l3)
    (h4 : extract_value g (gx - 1) gy = some l4)
    (h5 : extract_value g gx gy = some l5)
    (h6 : extract_value g (gx + 1) gy = some l6)
    (h7 : extract_value g (gx - 1) (gy - 1) = some l7)
    (h8 : extract_value g gx (gy - 1) = some l8)
    (h9 : extract_value g (gx + 1) (gy - 1) = some l9) :
    compute_separation g lon lat =
      some (
        x1^2*y1^2 * (0.25*l1 - 0.5*l2 + 0.25*l3 - 0.5*l4 + l5 - 0.5*l6 + 0.25*l7 - 0.5*l8 + 0.25*l9)
        + x1^2*y1 * (0.25*l1 - 0.5*l2 + 0.25*l3 - 0.25*l7 + 0.5*l8 - 0.25*l9)
        + x1*y1^2 * (-0.25*l1 + 0.25*l3 + 0.5*l4 - 0.5*l6 - 0.25*l7 + 0.25*l9)
        + x1^2 * (0.5*l4 - l5 + 0.5*l6)
        + y1^2 * (0.5*l2 - l5 + 0.5*l8)
        + x1*y1 * (-0.25*l1 + 0.25*l3 + 0.25*l7 - 0.25*l9)
        + x1 * (-0.5*l4 + 0.5*l6)
        + y1 * (0.5*l2 - 0.5*l8)
        + l5) := by
  simp only [compute_separation, hgx, hgy, h1, h2, h3, h4, h5, h6, h7, h8, h9,
    Option.bind_eq_bind, Option.some_bind, multiply_Ai_col, multiply_row_col, hx1, hy1]
  simp only [List.headD, Option.pure_def, Option.some.injEq]
  ring

set_option maxHeartbeats 1000000 in
/-- When the last neighbourhood extraction raises, compute_separation
propagates the exception. -/
lemma compute_separation_none (g : BYNState) (lon lat : ℚ) (gx gy : ℤ)
    (l1 l2 l3 l4 l5 l6 l7 l8 : ℚ)
    (hgx : ⌊(lon * 3600 - g.boundary_west) / g.spacing_ew⌋ = gx)
    (hgy : ⌊(lat * 3600 - g.boundary_south) / g.spacing_ns⌋ = gy)
    (h1 : extract_value g (gx - 1) (gy + 1) = some l1)
    (h2 : extract_value g gx (gy + 1) = some l2)
    (h3 : extract_value g (gx + 1) (gy + 1) = some l3)
    (h4 : extract_value g (gx - 1) gy = some l4)
    (h5 : extract_value g gx gy = some l5)
    (h6 : extract_value g (gx + 1) gy = some l6)
    (h7 : extract_value g (gx - 1) (gy - 1) = some l7)
    (h8 : extract_value g gx (gy - 1) = some l8)
    (h9 : extract_value g (gx + 1) (gy - 1) = none) :
    compute_separation g lon lat = none := by
  simp only [compute_separation, hgx, hgy, h1, h2, h3, h4, h5, h6, h7, h8, h9,
    Option.bind_eq_bind, Option.some_bind, Option.none_bind]

/-- In-bounds extraction from a constant grid returns the constant. -/
lemma extract_value_replicate (g : BYNState) (k : ℚ) (cx cy : ℤ)
    (hv : g.geoid_values = List.replicate (g.rows * g.columns) k)
    (hx0 : 0 ≤ cx) (hx1 : cx < (g.columns : ℤ))
    (hy0 : 0 ≤ cy) (hy1 : cy < (g.rows : ℤ)) :
    extract_value g cx cy = some k := by
  have hC0 : (0 : ℤ) ≤ (g.columns : ℤ) := Int.natCast_nonneg _
  have hguard : ¬(cx < 0 ∨ cx > (g.columns : ℤ) ∨ cy < 0 ∨ cy > (g.rows : ℤ)) := by
    push_neg
    exact ⟨hx0, le_of_lt hx1, hy0, le_of_lt hy1⟩
  unfold extract_value
  rw [if_neg hguard]
  have hcy0 : 0 ≤ (g.rows : ℤ) - cy - 1 := by omega
  have hoff0 : 0 ≤ ((g.rows : ℤ) - cy - 1) * (g.columns : ℤ) + cx :=
    add_nonneg (mul_nonneg hcy0 hC0) hx0
  have hofflt : ((g.rows : ℤ) - cy - 1) * (g.columns : ℤ) + cx <
      ((g.rows * g.columns : ℕ) : ℤ) := by
    push_cast
    have h1 : ((g.rows : ℤ) - cy - 1) * (g.columns : ℤ) ≤
        ((g.rows : ℤ) - 1) * (g.columns : ℤ) :=
      mul_le_mul_of_nonneg_right (by omega) hC0
    nlinarith
  unfold pyGet
  rw [if_pos hoff0, hv]
  have htn : (((g.rows : ℤ) - cy - 1) * (g.columns : ℤ) + cx).toNat <
      g.rows * g.columns := by omega
  rw [List.get?_eq_getElem?, List.getElem?_replicate, if_pos htn]

/-- compute_separation is interpolate_spec precomposed with the degree to
arc-second conversion of both query coordinates. -/
lemma compute_separation_eq_spec_shift (g : BYNState) (lon lat : ℚ) :
    compute_separation g lon lat = interpolate_spec g (lon * 3600) (lat * 3600) := rfl

/-- Out-of-range extraction (per the guard of the source) returns 0. -/
lemma extract_value_oob (g : BYNState) (cx cy : ℤ)
    (h : cx < 0 ∨ cx > (g.columns : ℤ) ∨ cy < 0 ∨ cy > (g.rows : ℤ)) :
    extract_value g cx cy = some 0 := by
  unfold extract_value
  rw [if_pos h]

end GeoidTool

/-! ## Theorems for the claims -/

namespace GeoidTool

/-- C6: parsing the minimal format-D text fixture with header lines
0.0 / 0.0 / 1.0 / 1.0 / 1 / 1 and body lines 1.0, 2.0, 3.0, 4.0 yields
rows = 2, columns = 2, boundary_south = 0, boundary_north = 1,
boundary_west = 0, boundary_east = 1 and values [1, 2, 3, 4]; in general a
format-D row/column header integer N denotes N + 1 grid points, and a
negative longitude header value is reflected through 360 degrees before
becoming a boundary field. -/
theorem C6_gsf_fixture_confirmed :
    ((load_gsf gsfFixture).rows = 2 ∧ (load_gsf gsfFixture).columns = 2 ∧
     (load_gsf gsfFixture).boundary_south = 0 ∧
     (load_gsf gsfFixture).boundary_north = 1 ∧
     (load_gsf gsfFixture).boundary_west = 0 ∧
     (load_gsf gsfFixture).boundary_east = 1 ∧
     (load_gsf gsfFixture).undulations = [1, 2, 3, 4]) ∧
    (∀ inp : GSFInput, (load_gsf inp).columns = inp.cols_header + 1 ∧
      (load_gsf inp).rows = inp.rows_header + 1) ∧
    (∀ inp : GSFInput, inp.min_lon < 0 →
      (load_gsf inp).boundary_west = 360 - |inp.min_lon|) := by
  refine ⟨?_, fun inp => ⟨rfl, rfl⟩, fun inp h => ?_⟩
  · refine ⟨rfl, rfl, rfl, rfl, ?_, ?_, rfl⟩ <;> norm_num [load_gsf, gsfFixture]
  · simp only [load_gsf, if_pos h]

/-- Witness for C6 at a concrete negative-longitude input. -/
theorem C6_gsf_fixture_witness :
    (load_gsf { gsfFixture with min_lon := -10 }).boundary_west =
      360 - |(-10 : ℚ)| :=
  C6_gsf_fixture_confirmed.2.2 { gsfFixture with min_lon := -10 } (by norm_num)

/-- C10: for format E, with discriminant 3 every raw value v at least 2
decodes to zmin + (v - 1)/zscale while v = 0 and v = 1 decode to the missing
marker 9999; with discriminant 4 a raw value v decodes to zmin + v/zscale
with no decrement; with discriminant 5 a raw float f decodes to zmin + f. -/
theorem C10_javad_decode_confirmed :
    (∀ zmin zscale v : ℚ, 2 ≤ v →
      decodeJavadSample 3 zmin zscale v = zmin + (v - 1) / zscale) ∧
    (∀ zmin zscale : ℚ, decodeJavadSample 3 zmin zscale 0 = 9999 ∧
      decodeJavadSample 3 zmin zscale 1 = 9999) ∧
    (∀ zmin zscale v : ℚ, decodeJavadSample 4 zmin zscale v = zmin + v / zscale) ∧
    (∀ zmin zscale v : ℚ, decodeJavadSample 5 zmin zscale v = zmin + v) := by
  refine ⟨fun zmin zscale v hv => ?_, fun zmin zscale => ⟨?_, ?_⟩,
    fun zmin zscale v => ?_, fun zmin zscale v => ?_⟩
  · have h01 : ¬(v = 0 ∨ v = 1) := by rintro (rfl | rfl) <;> norm_num at hv
    simp [decodeJavadSample, h01]
  · norm_num [decodeJavadSample]
  · norm_num [decodeJavadSample]
  · norm_num [decodeJavadSample]
  · norm_num [decodeJavadSample]

/-- Witness for C10 at concrete inputs. -/
theorem C10_javad_decode_witness :
    decodeJavadSample 3 2 4 10 = 2 + (10 - 1) / 4 :=
  C10_javad_decode_confirmed.1 2 4 10 (by norm_num)

/-- C9 counterexample: a format-E file with the unsupported discriminant 7
does not fail; load_geoid returns normally and the returned object carries an
empty value buffer, contradicting the claim that no Grid is returned and that
the parse fails with UnsupportedDataEncoding. -/
theorem C9_unsupported_discriminant_counterexample :
    load_geoid javadUnsupported ≠ none ∧
    Option.map JavadState.geoid_values (load_geoid javadUnsupported) =
      some ([] : List ℚ) := by
  constructor <;> simp [load_geoid, javadUnsupported]

/-- C9 amended: for format E, a data-type discriminant outside the supported
set {3, 4, 5} does not make the parse fail; load_geoid returns normally a
state whose value buffer is empty (header fields still populated), with no
UnsupportedDataEncoding error of any kind. -/
theorem C9_silent_empty_amended (f : JavadFile)
    (h3 : f.type_ ≠ 3) (h4 : f.type_ ≠ 4) (h5 : f.type_ ≠ 5) :
    load_geoid f ≠ none ∧
    Option.map JavadState.geoid_values (load_geoid f) = some ([] : List ℚ) := by
  have hcond : ¬(f.type_ = 3 ∨ f.type_ = 4 ∨ f.type_ = 5) := by tauto
  constructor <;> simp [load_geoid, hcond]

/-- Witness for the amended C9 at the concrete discriminant-7 file. -/
theorem C9_silent_empty_witness :
    load_geoid javadUnsupported ≠ none ∧
    Option.map JavadState.geoid_values (load_geoid javadUnsupported) =
      some ([] : List ℚ) :=
  C9_silent_empty_amended javadUnsupported (by simp [javadUnsupported])
    (by simp [javadUnsupported]) (by simp [javadUnsupported])

/-- C3 counterexample: the format-D parser returns an object whose header
implies a 2 by 2 grid while its value buffer holds only the 3 body lines;
no SizeInconsistency failure occurs and the invariant
values.length = rows*columns is violated by a returned grid. -/
theorem C3_size_invariant_counterexample :
    (load_gsf gsfShortInput).rows = 2 ∧
    (load_gsf gsfShortInput).columns = 2 ∧
    (load_gsf gsfShortInput).undulations.length = 3 ∧
    ((load_gsf gsfShortInput).undulations.length : ℤ) ≠
      (load_gsf gsfShortInput).rows * (load_gsf gsfShortInput).columns := by
  refine ⟨rfl, rfl, rfl, ?_⟩
  norm_num [load_gsf, gsfShortInput]

/-- C3 amended: the format-D parser performs no size validation at all: it
always returns, and the returned value count equals the number of body lines
in the file, whether or not that equals rows*columns. -/
theorem C3_no_size_check_amended (inp : GSFInput) :
    (load_gsf inp).undulations.length = inp.body.length := by
  simp [load_gsf]

/-- C7 counterexample: with scalar 2 and missing marker 2, the raw value 4
decodes to the missing marker under the scaled flag but to the number 4 with
the flag clear (no factor-of-scalar relation between the two decodes), and
the raw value 2 - exactly the header missing-value double - decodes under the
scaled flag to the numeric value 1, not to the missing marker. -/
theorem C7_scaled_flag_counterexample :
    decodeGGFValue true 2 2 4 = none ∧
    decodeGGFValue false 2 2 4 = some 4 ∧
    decodeGGFValue true 2 2 2 = some 1 := by
  refine ⟨?_, ?_, ?_⟩ <;> norm_num [decodeGGFValue]

/-- C7 amended: the missing-value comparison of format B applies to the
post-scaling value.  When neither decode produces the missing marker,
flipping the scaled flag changes each decoded value by exactly the scalar
factor; under the scaled flag it is the raw value missing*scalar (not the
raw missing value itself) that becomes the missing marker, and with the flag
clear a stored value equal to the missing double becomes the marker. -/
theorem C7_scaled_flag_amended :
    (∀ scalar missing raw : ℚ, raw / scalar ≠ missing → raw ≠ missing →
      decodeGGFValue true scalar missing raw = some (raw / scalar) ∧
      decodeGGFValue false scalar missing raw = some raw) ∧
    (∀ scalar missing : ℚ, scalar ≠ 0 →
      decodeGGFValue true scalar missing (missing * scalar) = none) ∧
    (∀ scalar missing : ℚ, decodeGGFValue false scalar missing missing = none) := by
  refine ⟨fun scalar missing raw h1 h2 => ⟨?_, ?_⟩,
    fun scalar missing h => ?_, fun scalar missing => ?_⟩
  · simp [decodeGGFValue, h1]
  · simp [decodeGGFValue, h2]
  · simp [decodeGGFValue, mul_div_cancel_right₀ missing h]
  · simp [decodeGGFValue]

/-- Witness for the amended C7 at concrete inputs. -/
theorem C7_scaled_flag_witness :
    decodeGGFValue true 2 3 8 = some (8 / 2) ∧
    decodeGGFValue false 2 3 8 = some 8 :=
  C7_scaled_flag_amended.1 2 3 8 (by norm_num) (by norm_num)

/-- C4 amended: only format A derives rows and columns from geometry, and it
does so with Python-2 integer floor division rather than rounding
(columns = (east - west) fdiv spacing_ew + 1, rows likewise); the format-D
and format-E parsers populate the row/column fields from header count fields
(format D as header integer + 1, format E directly from ncol/nrow). -/
theorem C4_count_sources_amended :
    (∀ h : BYNHeader, (load_byn h).isSome = true →
      Option.map BYNState.columns (load_byn h) =
        some (((h.boundary_east - h.boundary_west).fdiv h.spacing_ew + 1).toNat) ∧
      Option.map BYNState.rows (load_byn h) =
        some (((h.boundary_north - h.boundary_south).fdiv h.spacing_ns + 1).toNat)) ∧
    (∀ inp : GSFInput, (load_gsf inp).columns = inp.cols_header + 1 ∧
      (load_gsf inp).rows = inp.rows_header + 1) ∧
    (∀ f : JavadFile, (load_geoid f).isSome = true →
      Option.map JavadState.columns (load_geoid f) = some f.ncol ∧
      Option.map JavadState.rows (load_geoid f) = some f.nrow) := by
  refine ⟨fun h hs => ?_, fun inp => ⟨rfl, rfl⟩, fun f hs => ?_⟩
  · by_cases hc : h.raw_values.length <
        ((((h.boundary_east - h.boundary_west).fdiv h.spacing_ew + 1) *
          ((h.boundary_north - h.boundary_south).fdiv h.spacing_ns + 1)).toNat)
    · simp [load_byn, hc] at hs
    · simp [load_byn, hc]
  · by_cases ht : f.type_ = 3 ∨ f.type_ = 4 ∨ f.type_ = 5
    · by_cases hlen : f.raw_samples.length < f.nrow * f.ncol
      · simp [load_geoid, ht, hlen] at hs
      · simp [load_geoid, ht, hlen]
    · simp [load_geoid, ht]

/-- Witness for the amended C4 at a concrete BYN header. -/
theorem C4_count_sources_witness :
    (load_byn bynHeaderFix).isSome = true ∧
    Option.map BYNState.columns (load_byn bynHeaderFix) =
      some (((bynHeaderFix.boundary_east - bynHeaderFix.boundary_west).fdiv
        bynHeaderFix.spacing_ew + 1).toNat) := by
  have hs : (load_byn bynHeaderFix).isSome = true := rfl
  exact ⟨hs, (C4_count_sources_amended.1 bynHeaderFix hs).1⟩

/-- C4 counterexample: the format-D parser returns a grid with columns = 2
(header count + 1) while the geometry-derived value
round((east - west)/spacing_ew) + 1 equals 3 (because spacing_ew is span
divided by the incremented count), so the columns field is not the
geometry-derived value. -/
theorem C4_geometry_derivation_counterexample :
    (load_gsf gsfFixture).columns = 2 ∧
    round (((load_gsf gsfFixture).boundary_east - (load_gsf gsfFixture).boundary_west) /
        (load_gsf gsfFixture).spacing_ew) + 1 = 3 ∧
    (load_gsf gsfFixture).columns ≠
      round (((load_gsf gsfFixture).boundary_east - (load_gsf gsfFixture).boundary_west) /
        (load_gsf gsfFixture).spacing_ew) + 1 := by
  have h1 : (load_gsf gsfFixture).columns = 2 := rfl
  have harg : ((load_gsf gsfFixture).boundary_east - (load_gsf gsfFixture).boundary_west) /
      (load_gsf gsfFixture).spacing_ew = 2 := by
    norm_num [load_gsf, gsfFixture]
  have h2 : round (((load_gsf gsfFixture).boundary_east - (load_gsf gsfFixture).boundary_west) /
      (load_gsf gsfFixture).spacing_ew) + 1 = 3 := by
    rw [harg, round_eq, show (2:ℚ) + 1/2 = 5/2 by norm_num]
    have hfl : ⌊(5:ℚ)/2⌋ = 2 := by
      rw [Int.floor_eq_iff]
      constructor <;> norm_num
    rw [hfl]
    norm_num
  exact ⟨h1, h2, by rw [h1, h2]; decide⟩

/-- C8 amended: for format B, once the header prechecks pass (length at
least 146, signature present, geometry within tolerance, flag bytes valid),
the parse fails with error 6 (SizeInconsistency) exactly when the total size
differs from 146 + rows*columns*4 (+16 for version 1) and succeeds
otherwise; a version greater than 1 fails with error 3 (UnsupportedVersion),
and that check runs before the size check. -/
theorem C8_size_version_amended :
    (∀ (f : GGFFile) (strict : Bool), ¬(f.totalLen < 146) → f.sigOk = true →
      f.version > 1 → validateAndParse f strict = (false, 3)) ∧
    (∀ (f : GGFFile) (strict : Bool), ¬(f.totalLen < 146) → f.sigOk = true →
      f.version ≤ 1 →
      ¬(|f.latMin + ((f.latGridSize : ℚ) - 1) * f.latInterval - f.latMax| > 0.0001) →
      ¬(|f.longMin + ((f.longGridSize : ℚ) - 1) * f.longInterval - f.longMax| > 0.0001) →
      parseFlags f.flags1 f.flags2 f.flags3 f.flags4 f.flags5 strict = (true, 0) →
      (f.totalLen ≠ f.latGridSize * f.longGridSize * 4 + 146 +
          (if f.version = 1 then 16 else 0) →
        validateAndParse f strict = (false, 6)) ∧
      (f.totalLen = f.latGridSize * f.longGridSize * 4 + 146 +
          (if f.version = 1 then 16 else 0) →
        validateAndParse f strict = (true, 0))) := by
  constructor
  · intro f strict h1 h2 h3
    simp [validateAndParse, h1, h2, h3]
  · intro f strict h1 h2 hv hg1 hg2 hflags
    have hsig : ¬(f.sigOk = false) := by simp [h2]
    have hver : ¬(f.version > 1) := by omega
    unfold validateAndParse
    rw [if_neg h1, if_neg hsig, if_neg hver, if_neg hg1, if_neg hg2]
    simp only [hflags]
    by_cases h0 : f.version = 0
    · rw [if_pos h0]
      constructor
      · intro hsize
        rw [h0] at hsize
        norm_num at hsize
        rw [if_pos hsize]
      · intro hsize
        rw [h0] at hsize
        norm_num at hsize
        rw [if_neg (not_not_intro hsize)]
    · have h01 : f.version = 1 := by omega
      rw [if_neg h0]
      simp only [h01, eq_self_iff_true, if_true]
      constructor
      · intro hsize
        rw [if_pos hsize]
      · intro hsize
        rw [if_neg (not_not_intro hsize)]

/-- C8 counterexample: a buffer of total size 200 with 2 by 2 geometry
(consistent sizes would be 162 or 178) and version 5 fails with error 3
(UnsupportedVersion), not with error 6 (SizeInconsistency) as the claim
requires for any size-inconsistent buffer. -/
theorem C8_error_order_counterexample :
    validateAndParse ggfBadVersion false = (false, 3) ∧
    ggfBadVersion.totalLen ≠
      ggfBadVersion.latGridSize * ggfBadVersion.longGridSize * 4 + 146 ∧
    ggfBadVersion.totalLen ≠
      ggfBadVersion.latGridSize * ggfBadVersion.longGridSize * 4 + 146 + 16 ∧
    ((false, 3) : Bool × ℕ) ≠ (false, 6) := by
  refine ⟨rfl, by decide, by decide, by decide⟩

/-- Witness for the amended C8: the one-byte-longer buffer fails with
error 6 and the size-consistent buffer parses successfully. -/
theorem C8_size_version_witness :
    validateAndParse ggfBadSize false = (false, 6) ∧
    validateAndParse ggfGood false = (true, 0) := by
  constructor
  · exact ((C8_size_version_amended.2 ggfBadSize false (by decide) rfl (by decide)
      (by norm_num [ggfBadSize, ggfGood]) (by norm_num [ggfBadSize, ggfGood])
      (by decide)).1 (by decide))
  · exact ((C8_size_version_amended.2 ggfGood false (by decide) rfl (by decide)
      (by norm_num [ggfGood]) (by norm_num [ggfGood])
      (by decide)).2 (by decide))

/-- C2: the claim says any out-of-bounds neighbourhood index (negative, or at
least rows/columns) contributes 0 and interpolation never raises.  The guard
of the source uses strict comparisons (cell_x > columns, cell_y > rows), so
the out-of-bounds index cell_x = columns slips through; at cell (2, 0) of a
2 by 2 grid the computed offset is rows*columns = 4, one past the value
buffer, and the access raises IndexError - here extract_value evaluates to
none, and the interpolation query whose neighbourhood contains that cell
propagates the exception instead of returning a value. -/
theorem C2_extract_bounds_bug :
    extract_value bynSmallGrid 2 0 = none ∧
    compute_separation bynSmallGrid (1/3600) (1/3600) = none := by
  have hgx : ⌊((1:ℚ)/3600 * 3600 - bynSmallGrid.boundary_west) /
      bynSmallGrid.spacing_ew⌋ = 1 := by
    rw [show ((1:ℚ)/3600 * 3600 - bynSmallGrid.boundary_west) /
        bynSmallGrid.spacing_ew = 1 by norm_num [bynSmallGrid]]
    exact Int.floor_one
  have hgy : ⌊((1:ℚ)/3600 * 3600 - bynSmallGrid.boundary_south) /
      bynSmallGrid.spacing_ns⌋ = 1 := by
    rw [show ((1:ℚ)/3600 * 3600 - bynSmallGrid.boundary_south) /
        bynSmallGrid.spacing_ns = 1 by norm_num [bynSmallGrid]]
    exact Int.floor_one
  refine ⟨rfl, ?_⟩
  exact compute_separation_none bynSmallGrid (1/3600) (1/3600) 1 1
    30 40 10 10 20 30 30 40 hgx hgy rfl rfl rfl rfl rfl rfl rfl rfl rfl

/-- C1 amended: the interpolate operation does convert units internally: it
multiplies its longitude/latitude arguments by 3600 (decimal degrees to
arc-seconds) before subtracting boundary_west/boundary_south, so it equals
the spec-described direct-subtraction interpolator precomposed with that
conversion. -/
theorem C1_interpolate_units_amended (g : BYNState) (lon lat : ℚ) :
    compute_separation g lon lat = interpolate_spec g (lon * 3600) (lat * 3600) := rfl

/-- C1 counterexample: on a 3 by 3 constant-5 grid with west = south = 0 and
unit arc-second spacing, the query (1, 1) gives 0 under compute_separation
(the internal times-3600 shift pushes the neighbourhood far outside the
grid) but 5 under the direct-subtraction interpolator the claim describes,
so the grid-local offset is not computed directly from the coordinates as
given. -/
theorem C1_direct_offset_counterexample :
    compute_separation bynConstGrid5 1 1 = some 0 ∧
    interpolate_spec bynConstGrid5 1 1 = some 5 ∧
    compute_separation bynConstGrid5 1 1 ≠ interpolate_spec bynConstGrid5 1 1 := by
  have hcs : compute_separation bynConstGrid5 1 1 = some 0 := by
    have hgx : ⌊((1:ℚ) * 3600 - bynConstGrid5.boundary_west) /
        bynConstGrid5.spacing_ew⌋ = 3600 := by
      rw [show ((1:ℚ) * 3600 - bynConstGrid5.boundary_west) /
          bynConstGrid5.spacing_ew = 3600 by norm_num [bynConstGrid5]]
      rw [Int.floor_eq_iff]
      norm_num
    have hgy : ⌊((1:ℚ) * 3600 - bynConstGrid5.boundary_south) /
        bynConstGrid5.spacing_ns⌋ = 3600 := by
      rw [show ((1:ℚ) * 3600 - bynConstGrid5.boundary_south) /
          bynConstGrid5.spacing_ns = 3600 by norm_num [bynConstGrid5]]
      rw [Int.floor_eq_iff]
      norm_num
    have hx1 : ((1:ℚ) * 3600 - bynConstGrid5.boundary_west) /
        bynConstGrid5.spacing_ew - ((3600:ℤ) : ℚ) = 0 := by
      norm_num [bynConstGrid5]
    have hy1 : ((1:ℚ) * 3600 - bynConstGrid5.boundary_south) /
        bynConstGrid5.spacing_ns - ((3600:ℤ) : ℚ) = 0 := by
      norm_num [bynConstGrid5]
    have h := compute_separation_eq bynConstGrid5 1 1 3600 3600 0 0
      0 0 0 0 0 0 0 0 0 hgx hgy hx1 hy1 rfl rfl rfl rfl rfl rfl rfl rfl rfl
    rw [h]
    norm_num
  have hspec : interpolate_spec bynConstGrid5 1 1 = some 5 := by
    have hshift := compute_separation_eq_spec_shift bynConstGrid5 (1/3600) (1/3600)
    norm_num at hshift
    rw [← hshift]
    have hgx : ⌊((1:ℚ)/3600 * 3600 - bynConstGrid5.boundary_west) /
        bynConstGrid5.spacing_ew⌋ = 1 := by
      rw [show ((1:ℚ)/3600 * 3600 - bynConstGrid5.boundary_west) /
          bynConstGrid5.spacing_ew = 1 by norm_num [bynConstGrid5]]
      exact Int.floor_one
    have hgy : ⌊((1:ℚ)/3600 * 3600 - bynConstGrid5.boundary_south) /
        bynConstGrid5.spacing_ns⌋ = 1 := by
      rw [show ((1:ℚ)/3600 * 3600 - bynConstGrid5.boundary_south) /
          bynConstGrid5.spacing_ns = 1 by norm_num [bynConstGrid5]]
      exact Int.floor_one
    have hx1 : ((1:ℚ)/3600 * 3600 - bynConstGrid5.boundary_west) /
        bynConstGrid5.spacing_ew - ((1:ℤ) : ℚ) = 0 := by
      norm_num [bynConstGrid5]
    have hy1 : ((1:ℚ)/3600 * 3600 - bynConstGrid5.boundary_south) /
        bynConstGrid5.spacing_ns - ((1:ℤ) : ℚ) = 0 := by
      norm_num [bynConstGrid5]
    have h := compute_separation_eq bynConstGrid5 (1/3600) (1/3600) 1 1 0 0
      5 5 5 5 5 5 5 5 5 hgx hgy hx1 hy1 rfl rfl rfl rfl rfl rfl rfl rfl rfl
    rw [h]
    norm_num
  refine ⟨hcs, hspec, ?_⟩
  rw [hcs, hspec]
  intro hEq
  exact absurd (Option.some.inj hEq) (by norm_num)

/-- C5 amended: for a grid whose value buffer is one constant k everywhere,
interpolation returns exactly k at every query point whose full 3 by 3
neighbourhood lies inside the grid (base cell at least one cell away from
every edge); near the west/south edges the zero fallback contaminates the
neighbourhood and exactness fails (see the counterexample). -/
theorem C5_interior_constant_amended (g : BYNState) (k lon lat : ℚ) (gx gy : ℤ)
    (hv : g.geoid_values = List.replicate (g.rows * g.columns) k)
    (hgx : ⌊(lon * 3600 - g.boundary_west) / g.spacing_ew⌋ = gx)
    (hgy : ⌊(lat * 3600 - g.boundary_south) / g.spacing_ns⌋ = gy)
    (hx1 : 1 ≤ gx) (hx2 : gx + 2 ≤ (g.columns : ℤ))
    (hy1 : 1 ≤ gy) (hy2 : gy + 2 ≤ (g.rows : ℤ)) :
    compute_separation g lon lat = some k := by
  have hext : ∀ cx cy : ℤ, gx - 1 ≤ cx → cx ≤ gx + 1 → gy - 1 ≤ cy → cy ≤ gy + 1 →
      extract_value g cx cy = some k := by
    intro cx cy a b c d
    exact extract_value_replicate g k cx cy hv (by omega) (by omega) (by omega) (by omega)
  have h := compute_separation_eq g lon lat gx gy
      ((lon * 3600 - g.boundary_west) / g.spacing_ew - (gx : ℚ))
      ((lat * 3600 - g.boundary_south) / g.spacing_ns - (gy : ℚ))
      k k k k k k k k k hgx hgy rfl rfl
      (hext _ _ (by omega) (by omega) (by omega) (by omega))
      (hext _ _ (by omega) (by omega) (by omega) (by omega))
      (hext _ _ (by omega) (by omega) (by omega) (by omega))
      (hext _ _ (by omega) (by omega) (by omega) (by omega))
      (hext _ _ (by omega) (by omega) (by omega) (by omega))
      (hext _ _ (by omega) (by omega) (by omega) (by omega))
      (hext _ _ (by omega) (by omega) (by omega) (by omega))
      (hext _ _ (by omega) (by omega) (by omega) (by omega))
      (hext _ _ (by omega) (by omega) (by omega) (by omega))
  rw [h]
  congr 1
  ring

/-- Witness for the amended C5: a 3 by 3 constant-7 grid queried at the
point whose base cell is (1, 1) returns exactly 7. -/
theorem C5_interior_constant_witness :
    compute_separation bynConstGrid7 (1/3000) (1/3000) = some 7 := by
  have hgx : ⌊((1:ℚ)/3000 * 3600 - bynConstGrid7.boundary_west) /
      bynConstGrid7.spacing_ew⌋ = 1 := by
    rw [show ((1:ℚ)/3000 * 3600 - bynConstGrid7.boundary_west) /
        bynConstGrid7.spacing_ew = 6/5 by norm_num [bynConstGrid7]]
    rw [Int.floor_eq_iff]
    norm_num
  have hgy : ⌊((1:ℚ)/3000 * 3600 - bynConstGrid7.boundary_south) /
      bynConstGrid7.spacing_ns⌋ = 1 := by
    rw [show ((1:ℚ)/3000 * 3600 - bynConstGrid7.boundary_south) /
        bynConstGrid7.spacing_ns = 6/5 by norm_num [bynConstGrid7]]
    rw [Int.floor_eq_iff]
    norm_num
  exact C5_interior_constant_amended bynConstGrid7 7 (1/3000) (1/3000) 1 1
    rfl hgx hgy (by decide) (by decide) (by decide) (by decide)

/-- C5 counterexample: on a 3 by 3 all-ones grid the query point at half a
cell from the south-west corner is strictly inside the grid, yet the
neighbourhood of its base cell (0, 0) contains out-of-bounds cells that
contribute 0, and interpolation returns 81/64, not the constant 1. -/
theorem C5_constant_exactness_counterexample :
    bynConstGrid1.boundary_west < (1/7200 : ℚ) * 3600 ∧
    (1/7200 : ℚ) * 3600 < bynConstGrid1.boundary_east ∧
    bynConstGrid1.boundary_south < (1/7200 : ℚ) * 3600 ∧
    (1/7200 : ℚ) * 3600 < bynConstGrid1.boundary_north ∧
    bynConstGrid1.geoid_values =
      List.replicate (bynConstGrid1.rows * bynConstGrid1.columns) 1 ∧
    compute_separation bynConstGrid1 (1/7200) (1/7200) = some (81/64) ∧
    (81/64 : ℚ) ≠ 1 := by
  refine ⟨by norm_num [bynConstGrid1], by norm_num [bynConstGrid1],
    by norm_num [bynConstGrid1], by norm_num [bynConstGrid1], rfl, ?_, by norm_num⟩
  have hgx : ⌊((1:ℚ)/7200 * 3600 - bynConstGrid1.boundary_west) /
      bynConstGrid1.spacing_ew⌋ = 0 := by
    rw [show ((1:ℚ)/7200 * 3600 - bynConstGrid1.boundary_west) /
        bynConstGrid1.spacing_ew = 1/2 by norm_num [bynConstGrid1]]
    rw [Int.floor_eq_iff]
    norm_num
  have hgy : ⌊((1:ℚ)/7200 * 3600 - bynConstGrid1.boundary_south) /
      bynConstGrid1.spacing_ns⌋ = 0 := by
    rw [show ((1:ℚ)/7200 * 3600 - bynConstGrid1.boundary_south) /
        bynConstGrid1.spacing_ns = 1/2 by norm_num [bynConstGrid1]]
    rw [Int.floor_eq_iff]
    norm_num
  have hx1 : ((1:ℚ)/7200 * 3600 - bynConstGrid1.boundary_west) /
      bynConstGrid1.spacing_ew - ((0:ℤ) : ℚ) = 1/2 := by
    norm_num [bynConstGrid1]
  have hy1 : ((1:ℚ)/7200 * 3600 - bynConstGrid1.boundary_south) /
      bynConstGrid1.spacing_ns - ((0:ℤ) : ℚ) = 1/2 := by
    norm_num [bynConstGrid1]
  have h := compute_separation_eq bynConstGrid1 (1/7200) (1/7200) 0 0 (1/2) (1/2)
    0 1 1 0 1 1 0 0 0 hgx hgy hx1 hy1 rfl rfl rfl rfl rfl rfl rfl rfl rfl
  rw [h]
  norm_num

end GeoidTool
